import Mathlib

/-!
Shallow embedding of the gnashblade trading engine.

Conventions of the embedding:
* Python `int` is modelled as `ℤ`; Python `float` arithmetic is modelled
  exactly over `ℚ` (decimal float literals such as `0.05` are read as the
  decimal rationals they denote, which is exact on the integer price ranges
  the program handles).
* Python `Optional[T]` is modelled as `Option T`; the float value
  `float("inf")` produced by `calc_competition_ratio` is modelled with
  `WithTop ℚ` (`⊤` is `+∞`).
* Python `int(x)` (truncation toward zero) is `pyInt`.
* Local bindings of the source (`cost`, `listing_fee`, `exchange_fee`,
  `revenue`) are lifted to top-level definitions carrying the same names.
-/

/-- Python `int(x)`: truncation of a rational toward zero. -/
def pyInt (x : ℚ) : ℤ :=
  if 0 ≤ x then ⌊x⌋ else -⌊-x⌋

/-- Truthy comparison `vendor_value is not None and x <= vendor_value`
from `lib/calculator.py`. -/
def le_vendor (x : ℤ) (vendor_value : Option ℤ) : Bool :=
  match vendor_value with
  | none => false
  | some v => decide (x ≤ v)

/-- Source: `lib/calculator.py`, `calc_percent_profit`, binding
`listing_fee = max(1, int(sell_price * 0.05))`. -/
def listing_fee (sell_price : ℤ) : ℤ :=
  max 1 (pyInt ((sell_price : ℚ) * (5 / 100)))

/-- Source: `lib/calculator.py`, `calc_percent_profit`, binding
`exchange_fee = max(1, int(sell_price * 0.10))`. -/
def exchange_fee (sell_price : ℤ) : ℤ :=
  max 1 (pyInt ((sell_price : ℚ) * (10 / 100)))

/-- Source: `lib/calculator.py`, `calc_percent_profit`, binding
`revenue = sell_price - 1 - listing_fee - exchange_fee`. -/
def revenue (sell_price : ℤ) : ℤ :=
  sell_price - 1 - listing_fee sell_price - exchange_fee sell_price

/-- Source: `lib/calculator.py`, `calc_percent_profit`.  The binding
`cost = buy_price + 1` is inlined. -/
def calc_percent_profit (buy_price sell_price : ℤ) (vendor_value : Option ℤ) : ℚ :=
  if buy_price ≤ 0 ∨ sell_price ≤ 0 then 0
  else if le_vendor buy_price vendor_value then 0
  else if revenue sell_price ≤ buy_price + 1 then 0
  else if le_vendor (revenue sell_price) vendor_value then 0
  else ((revenue sell_price : ℚ) - ((buy_price + 1 : ℤ) : ℚ)) / ((buy_price + 1 : ℤ) : ℚ) * 100

/-- Source: `lib/models.py`, dataclass `HistoryEntry` (defaults `0` / `None`
as in the source). -/
structure HistoryEntry where
  date : String
  buy_sold : ℤ := 0
  sell_sold : ℤ := 0
  buy_value : ℤ := 0
  sell_value : ℤ := 0
  buy_listed : ℤ := 0
  sell_listed : ℤ := 0
  buy_delisted : ℤ := 0
  sell_delisted : ℤ := 0
  buy_price_avg : Option ℚ := none
  buy_price_min : Option ℤ := none
  buy_price_max : Option ℤ := none
  buy_price_stdev : Option ℚ := none
  sell_price_avg : Option ℚ := none
  sell_price_min : Option ℤ := none
  sell_price_max : Option ℤ := none
  sell_price_stdev : Option ℚ := none
  buy_quantity_avg : Option ℚ := none
  sell_quantity_avg : Option ℚ := none
  count : ℤ := 0
  deriving DecidableEq, Repr

/-- Source: `lib/calculator.py`, `calc_velocity`.  The comprehensions
`[h.buy_value for h in history if h.buy_value]` skip falsy (zero) values. -/
def calc_velocity (history : List HistoryEntry) : ℚ × ℚ × ℚ × ℚ × ℚ × ℚ :=
  if history = [] then (0, 0, 0, 0, 0, 0)
  else
    let buy_values : List ℤ :=
      (history.filter (fun h => h.buy_value != 0)).map (fun h => h.buy_value)
    let sell_values : List ℤ :=
      (history.filter (fun h => h.sell_value != 0)).map (fun h => h.sell_value)
    let buy_velocity_1d : ℚ := if buy_values = [] then 0 else (buy_values.headD 0 : ℚ) / 10000
    let sell_velocity_1d : ℚ := if sell_values = [] then 0 else (sell_values.headD 0 : ℚ) / 10000
    let buy_velocity_7d : ℚ :=
      if buy_values = [] then 0
      else ((buy_values.take 7).sum : ℚ) / ((min 7 buy_values.length : ℕ) : ℚ) / 10000
    let sell_velocity_7d : ℚ :=
      if sell_values = [] then 0
      else ((sell_values.take 7).sum : ℚ) / ((min 7 sell_values.length : ℕ) : ℚ) / 10000
    let buy_velocity_30d : ℚ :=
      if buy_values = [] then 0
      else ((buy_values.take 30).sum : ℚ) / ((min 30 buy_values.length : ℕ) : ℚ) / 10000
    let sell_velocity_30d : ℚ :=
      if sell_values = [] then 0
      else ((sell_values.take 30).sum : ℚ) / ((min 30 sell_values.length : ℕ) : ℚ) / 10000
    (buy_velocity_1d, sell_velocity_1d, buy_velocity_7d, sell_velocity_7d,
      buy_velocity_30d, sell_velocity_30d)

/-- Source: `lib/calculator.py`, `calc_quantity_sold`.  The comprehensions
`[h.buy_sold for h in history if h.buy_sold]` skip falsy (zero) values. -/
def calc_quantity_sold (history : List HistoryEntry) : ℤ × ℤ × ℤ × ℤ × ℤ × ℤ :=
  if history = [] then (0, 0, 0, 0, 0, 0)
  else
    let buy_quantities : List ℤ :=
      (history.filter (fun h => h.buy_sold != 0)).map (fun h => h.buy_sold)
    let sell_quantities : List ℤ :=
      (history.filter (fun h => h.sell_sold != 0)).map (fun h => h.sell_sold)
    let buy_sold_1d : ℤ := if buy_quantities = [] then 0 else buy_quantities.headD 0
    let sell_sold_1d : ℤ := if sell_quantities = [] then 0 else sell_quantities.headD 0
    let buy_sold_7d : ℤ := if buy_quantities = [] then 0 else (buy_quantities.take 7).sum
    let sell_sold_7d : ℤ := if sell_quantities = [] then 0 else (sell_quantities.take 7).sum
    let buy_sold_30d : ℤ := if buy_quantities = [] then 0 else (buy_quantities.take 30).sum
    let sell_sold_30d : ℤ := if sell_quantities = [] then 0 else (sell_quantities.take 30).sum
    (buy_sold_1d, sell_sold_1d, buy_sold_7d, sell_sold_7d, buy_sold_30d, sell_sold_30d)

/-- Source: `lib/calculator.py`, `calc_competition_ratio`.  `float("inf")`
is modelled by `⊤ : WithTop ℚ`. -/
def calc_competition_ratio (history : List HistoryEntry) : WithTop ℚ × WithTop ℚ :=
  match history with
  | [] => (0, 0)
  | entry :: _ =>
    (if entry.buy_sold = 0 then ⊤ else ((entry.buy_listed : ℚ) / (entry.buy_sold : ℚ) : ℚ),
     if entry.sell_sold = 0 then ⊤ else ((entry.sell_listed : ℚ) / (entry.sell_sold : ℚ) : ℚ))

/-- Source: `lib/calculator.py`, `calc_flip_score`. -/
def calc_flip_score (buy_sold_qty sell_sold_qty buy_price : ℤ)
    (percent_profit : ℚ) : ℚ :=
  if percent_profit ≤ 0 then 0
  else ((min buy_sold_qty sell_sold_qty : ℤ) : ℚ) * (buy_price : ℚ) * (percent_profit / 100)

/-- Source: `lib/models.py`, dataclass `Item` (note: it has NO `flip_score`
field). -/
structure Item where
  id : ℤ
  name : String
  buy_price : Option ℤ := none
  sell_price : Option ℤ := none
  buy_quantity : Option ℤ := none
  sell_quantity : Option ℤ := none
  vendor_value : Option ℤ := none
  buy_velocity_1d : Option ℚ := none
  sell_velocity_1d : Option ℚ := none
  buy_velocity_7d : Option ℚ := none
  sell_velocity_7d : Option ℚ := none
  buy_velocity_30d : Option ℚ := none
  sell_velocity_30d : Option ℚ := none
  buy_sold_1d : Option ℤ := none
  sell_sold_1d : Option ℤ := none
  buy_sold_7d : Option ℤ := none
  sell_sold_7d : Option ℤ := none
  buy_sold_30d : Option ℤ := none
  sell_sold_30d : Option ℤ := none
  buy_competition_ratio : Option (WithTop ℚ) := none
  sell_competition_ratio : Option (WithTop ℚ) := none
  competition_gold : Option ℚ := none
  competition_tiers : Option ℤ := none
  price_pressure : Option ℚ := none
  buy_price_min_yesterday : Option ℤ := none
  sell_price_max_yesterday : Option ℤ := none
  listed_ratio : Option ℚ := none
  delisted_ratio : Option ℚ := none
  spread_percent : Option ℚ := none
  price_updated : Option String := none
  velocity_updated : Option String := none
  deriving DecidableEq, Repr

/-- Source: `lib/models.py`, dataclass `FlipResult`. -/
structure FlipResult where
  item : Item
  percent_profit : ℚ
  flip_score : ℚ
  flip_velocity : ℚ := 0
  deriving DecidableEq, Repr

/-- Source: `lib/models.py`, an order-book listing.  Python represents it as
a dict read via `order.get("unit_price", 0)` / `order.get("quantity", 0)`;
modelled as a record whose fields default to `0`. -/
structure Listing where
  unit_price : ℤ := 0
  quantity : ℤ := 0
  deriving DecidableEq, Repr

/-- Source: `lib/models.py`, dataclass `OrderBook`. -/
structure OrderBook where
  item_id : ℤ
  buys : List Listing := []
  sells : List Listing := []
  deriving DecidableEq, Repr

/-- Source: `lib/models.py`, `OrderBook.get_competition_metrics`: running
accumulation of `(competition_gold, price_tiers)` over the buy listings. -/
def OrderBook.get_competition_metrics (book : OrderBook)
    (buy_price_floor : Option ℤ) : ℚ × ℤ :=
  match buy_price_floor with
  | none => (0, 0)
  | some floor =>
    if book.buys = [] then (0, 0)
    else
      book.buys.foldl
        (fun acc order =>
          if floor < order.unit_price then
            (acc.1 + ((order.unit_price * order.quantity : ℤ) : ℚ) / 10000, acc.2 + 1)
          else acc)
        (0, 0)

/-- Source: `lib/models.py`, `OrderBook.get_sell_competition_metrics`. -/
def OrderBook.get_sell_competition_metrics (book : OrderBook)
    (sell_price_ceiling : Option ℤ) : ℚ × ℤ :=
  match sell_price_ceiling with
  | none => (0, 0)
  | some ceiling =>
    if book.sells = [] then (0, 0)
    else
      book.sells.foldl
        (fun acc order =>
          if order.unit_price < ceiling ∧ 0 < order.unit_price then
            (acc.1 + ((order.unit_price * order.quantity : ℤ) : ℚ) / 10000, acc.2 + 1)
          else acc)
        (0, 0)

/-- Source: `lib/calculator.py`, `calculate_flip_result`.  Python truthy
defaulting `x or 0` on optional numerics is `Option.getD _ 0`. -/
def calculate_flip_result (item : Item) (days : ℤ) : Option FlipResult :=
  match item.buy_price, item.sell_price, item.buy_quantity, item.sell_quantity with
  | some bp, some sp, some bq, some sq =>
    if bp ≤ 0 ∨ sp ≤ 0 then none
    else if bq = 0 ∨ sq = 0 then none
    else if le_vendor bp item.vendor_value then none
    else
      let percent_profit := calc_percent_profit bp sp item.vendor_value
      if percent_profit ≤ 0 then none
      else
        let sel : ℚ × ℚ × ℤ × ℤ :=
          if days = 1 then
            (item.buy_velocity_1d.getD 0, item.sell_velocity_1d.getD 0,
             item.buy_sold_1d.getD 0, item.sell_sold_1d.getD 0)
          else if days = 7 then
            (item.buy_velocity_7d.getD 0, item.sell_velocity_7d.getD 0,
             item.buy_sold_7d.getD 0, item.sell_sold_7d.getD 0)
          else
            (item.buy_velocity_30d.getD 0, item.sell_velocity_30d.getD 0,
             item.buy_sold_30d.getD 0, item.sell_sold_30d.getD 0)
        if sel.1 ≤ 0 ∨ sel.2.1 ≤ 0 then none
        else
          let flip_velocity := min sel.1 sel.2.1
          let flip_score := calc_flip_score sel.2.2.1 sel.2.2.2 bp percent_profit
          if flip_score ≤ 0 then none
          else some ⟨item, percent_profit, flip_score, flip_velocity⟩
  | _, _, _, _ => none

/-- Source: `lib/models.py`, dataclass `ItemPrice` (the raw price snapshot). -/
structure ItemPrice where
  id : ℤ
  name : String
  buy_price : Option ℤ := none
  sell_price : Option ℤ := none
  buy_quantity : Option ℤ := none
  sell_quantity : Option ℤ := none
  vendor_value : Option ℤ := none
  buy_velocity_1d : Option ℚ := none
  sell_velocity_1d : Option ℚ := none
  buy_velocity_7d : Option ℚ := none
  sell_velocity_7d : Option ℚ := none
  buy_velocity_30d : Option ℚ := none
  sell_velocity_30d : Option ℚ := none
  buy_sold_1d : Option ℤ := none
  sell_sold_1d : Option ℤ := none
  buy_sold_7d : Option ℤ := none
  sell_sold_7d : Option ℤ := none
  buy_sold_30d : Option ℤ := none
  sell_sold_30d : Option ℤ := none
  deriving DecidableEq, Repr

/-- Source: `lib/database.py`, `_ensure_schema`: one row of the `items`
table.  Every non-key column is nullable. -/
structure ItemRow where
  id : ℤ
  name : String
  buy_price : Option ℤ := none
  sell_price : Option ℤ := none
  buy_quantity : Option ℤ := none
  sell_quantity : Option ℤ := none
  vendor_value : Option ℤ := none
  buy_velocity_1d : Option ℚ := none
  sell_velocity_1d : Option ℚ := none
  buy_velocity_7d : Option ℚ := none
  sell_velocity_7d : Option ℚ := none
  buy_velocity_30d : Option ℚ := none
  sell_velocity_30d : Option ℚ := none
  buy_sold_1d : Option ℤ := none
  sell_sold_1d : Option ℤ := none
  buy_sold_7d : Option ℤ := none
  sell_sold_7d : Option ℤ := none
  buy_sold_30d : Option ℤ := none
  sell_sold_30d : Option ℤ := none
  buy_competition_ratio : Option (WithTop ℚ) := none
  sell_competition_ratio : Option (WithTop ℚ) := none
  competition_gold : Option ℚ := none
  competition_tiers : Option ℤ := none
  price_pressure : Option ℚ := none
  buy_price_min_yesterday : Option ℤ := none
  sell_price_max_yesterday : Option ℤ := none
  flip_score : Option ℚ := none
  price_updated : Option String := none
  velocity_updated : Option String := none
  deriving DecidableEq, Repr

/-- SQLite `COALESCE` on two nullable values. -/
def coalesce (a b : Option ℤ) : Option ℤ :=
  match a with
  | some v => some v
  | none => b

/-- Source: `lib/database.py`, `upsert_items`, the
`ON CONFLICT(id) DO UPDATE SET` arm applied to one existing row. -/
def upsert_row (row : ItemRow) (item : ItemPrice) (now : String) : ItemRow :=
  { row with
    name := item.name
    buy_price := item.buy_price
    sell_price := item.sell_price
    buy_quantity := item.buy_quantity
    sell_quantity := item.sell_quantity
    vendor_value := coalesce item.vendor_value row.vendor_value
    price_updated := some now }

/-- Source: `lib/database.py`, `upsert_items`, the `INSERT` arm for an id
not present yet: only the listed raw columns receive values. -/
def insert_row (item : ItemPrice) (now : String) : ItemRow :=
  { id := item.id
    name := item.name
    buy_price := item.buy_price
    sell_price := item.sell_price
    buy_quantity := item.buy_quantity
    sell_quantity := item.sell_quantity
    vendor_value := item.vendor_value
    price_updated := some now }

/-- Source: `lib/database.py`, `upsert_items`: each snapshot in the list is
upserted in turn (the table is modelled as a list of rows keyed by `id`). -/
def upsert_items (db : List ItemRow) (items : List ItemPrice) (now : String) : List ItemRow :=
  items.foldl
    (fun rows item =>
      if rows.any (fun r => r.id == item.id) then
        rows.map (fun r => if r.id == item.id then upsert_row r item now else r)
      else rows ++ [insert_row item now])
    db

/-- Source: `lib/database.py`, `recompute_derived_metrics`, the body of the
per-row loop: velocities from stored sold quantities and raw prices, and
`flip_score` recomputed when both prices are positive.  Python `x or 0` on a
nullable column is `Option.getD _ 0`. -/
def recompute_row (row : ItemRow) : ItemRow :=
  let buy_price := row.buy_price.getD 0
  let sell_price := row.sell_price.getD 0
  let buy_sold_1d := row.buy_sold_1d.getD 0
  let sell_sold_1d := row.sell_sold_1d.getD 0
  let buy_sold_7d := row.buy_sold_7d.getD 0
  let sell_sold_7d := row.sell_sold_7d.getD 0
  let buy_sold_30d := row.buy_sold_30d.getD 0
  let sell_sold_30d := row.sell_sold_30d.getD 0
  let buy_velocity_1d : ℚ := ((buy_sold_1d * buy_price : ℤ) : ℚ) / 10000
  let sell_velocity_1d : ℚ := ((sell_sold_1d * sell_price : ℤ) : ℚ) / 10000
  let buy_velocity_7d : ℚ := ((buy_sold_7d : ℚ) / 7 * (buy_price : ℚ)) / 10000
  let sell_velocity_7d : ℚ := ((sell_sold_7d : ℚ) / 7 * (sell_price : ℚ)) / 10000
  let buy_velocity_30d : ℚ := ((buy_sold_30d : ℚ) / 30 * (buy_price : ℚ)) / 10000
  let sell_velocity_30d : ℚ := ((sell_sold_30d : ℚ) / 30 * (sell_price : ℚ)) / 10000
  let flip_score : ℚ :=
    if 0 < buy_price ∧ 0 < sell_price then
      calc_flip_score buy_sold_1d sell_sold_1d buy_price
        (calc_percent_profit buy_price sell_price row.vendor_value)
    else 0
  { row with
    buy_velocity_1d := some buy_velocity_1d
    sell_velocity_1d := some sell_velocity_1d
    buy_velocity_7d := some buy_velocity_7d
    sell_velocity_7d := some sell_velocity_7d
    buy_velocity_30d := some buy_velocity_30d
    sell_velocity_30d := some sell_velocity_30d
    flip_score := some flip_score }

/-- Source: `lib/database.py`, `recompute_derived_metrics`: the loop runs
over every stored row and writes the recomputed columns back. -/
def recompute_derived_metrics (db : List ItemRow) : List ItemRow :=
  db.map recompute_row

/-- Source: `gw2_trader.py`, `cmd_flips`: the threshold arguments parsed
from the command line. -/
structure FlipsArgs where
  days : ℤ
  limit : ℕ
  min_profit : ℚ
  max_profit : Option ℚ
  max_price : ℤ
  min_sold : ℤ
  min_bought : ℤ
  deriving DecidableEq, Repr

/-- Source: `gw2_trader.py`, `cmd_flips`, the guard
`if item.sell_price and item.sell_price > args.max_price: continue`
(`None` and `0` are falsy). -/
def over_max_price (item : Item) (max_price : ℤ) : Bool :=
  match item.sell_price with
  | none => false
  | some sp => sp != 0 && decide (max_price < sp)

/-- Source: `gw2_trader.py`, `cmd_flips`, the body of the loop over items:
threshold filters, then `calculate_flip_result`, then the profit window.
The locals `avg_daily_sold = (item.sell_sold_7d or 0) / 7` and
`avg_daily_bought = (item.buy_sold_7d or 0) / 7` are inlined. -/
def flips_filter (args : FlipsArgs) (item : Item) : Option FlipResult :=
  if over_max_price item args.max_price then none
  else
    if (item.sell_sold_7d.getD 0 : ℚ) / 7 < (args.min_sold : ℚ) then none
    else if (item.buy_sold_7d.getD 0 : ℚ) / 7 < (args.min_bought : ℚ) then none
    else
      match calculate_flip_result item args.days with
      | none => none
      | some result =>
        if 0 < result.flip_score then
          if args.min_profit ≤ result.percent_profit then
            match args.max_profit with
            | none => some result
            | some mp => if result.percent_profit ≤ mp then some result else none
          else none
        else none

/-- Comparator used to model `results.sort(key=lambda r: r.flip_score,
reverse=True)`: Python list sort is stable, so a stable merge sort with
this relation produces the same list. -/
def le_flip (a b : FlipResult) : Bool :=
  decide (b.flip_score ≤ a.flip_score)

/-- Accumulation step of the `cmd_flips` loop: append the surviving result
(if any) to the results list. -/
def opt_append {β : Type} (acc : List β) (r : Option β) : List β :=
  match r with
  | none => acc
  | some r => acc ++ [r]

/-- Source: `gw2_trader.py`, `cmd_flips`, the ranking pipeline: accumulate
the surviving results, sort by `flip_score` descending, truncate to the
limit. -/
def cmd_flips (args : FlipsArgs) (items : List Item) : List FlipResult :=
  let results :=
    items.foldl (fun acc item => opt_append acc (flips_filter args item)) []
  (results.mergeSort le_flip).take args.limit

/-- Source: `lib/models.py`, the field names of dataclass `Item`, in
declaration order. -/
def item_field_names : List String :=
  ["id", "name", "buy_price", "sell_price", "buy_quantity", "sell_quantity",
   "vendor_value", "buy_velocity_1d", "sell_velocity_1d", "buy_velocity_7d",
   "sell_velocity_7d", "buy_velocity_30d", "sell_velocity_30d",
   "buy_sold_1d", "sell_sold_1d", "buy_sold_7d", "sell_sold_7d",
   "buy_sold_30d", "sell_sold_30d", "buy_competition_ratio",
   "sell_competition_ratio", "competition_gold", "competition_tiers",
   "price_pressure", "buy_price_min_yesterday", "sell_price_max_yesterday",
   "listed_ratio", "delisted_ratio", "spread_percent", "price_updated",
   "velocity_updated"]

/-- Source: `lib/database.py`, `Database._row_to_item`: the keyword
arguments it passes to the `Item` constructor, in call order. -/
def row_to_item_kwarg_names : List String :=
  ["id", "name", "buy_price", "sell_price", "buy_quantity", "sell_quantity",
   "vendor_value", "buy_velocity_1d", "sell_velocity_1d", "buy_velocity_7d",
   "sell_velocity_7d", "buy_velocity_30d", "sell_velocity_30d",
   "buy_sold_1d", "sell_sold_1d", "buy_sold_7d", "sell_sold_7d",
   "buy_sold_30d", "sell_sold_30d", "buy_competition_ratio",
   "sell_competition_ratio", "competition_gold", "competition_tiers",
   "price_pressure", "buy_price_min_yesterday", "sell_price_max_yesterday",
   "flip_score", "price_updated", "velocity_updated"]

/-- Error value for the Python exception raised by a keyword call. -/
inductive PyError where
  | typeError
  deriving DecidableEq, Repr

/-- Python keyword-call semantics for a dataclass constructor: binding a
keyword that is not a declared field raises `TypeError` before any field is
assigned; otherwise the keyword assignments are returned. -/
def dataclass_call {V : Type} (fields : List String)
    (kwargs : List (String × V)) : Except PyError (List (String × V)) :=
  if kwargs.all (fun kv => fields.contains kv.1) then Except.ok kwargs
  else Except.error PyError.typeError

/-- Source: `lib/database.py`, `Database._row_to_item`: build the keyword
arguments from the row and call the `Item` constructor with them.  `row` is
the fetched SQLite row, a mapping from column name to value. -/
def row_to_item {V : Type} (row : String → V) : Except PyError (List (String × V)) :=
  dataclass_call item_field_names (row_to_item_kwarg_names.map (fun k => (k, row k)))

/-- Source: `lib/database.py`, `get_all_items`:
`[self._row_to_item(row) for row in rows]`, with the first raised exception
propagating out of the comprehension. -/
def get_all_items {V : Type} (rows : List (String → V)) :
    Except PyError (List (List (String × V))) :=
  rows.mapM row_to_item

/-- Claim-side reading of the fee model (C1): fees as floor-truncated
rationals with a 1-unit minimum, revenue as in the spec text.  For positive
prices this coincides with `revenue`. -/
def spec_revenue (sell_price : ℤ) : ℤ :=
  sell_price - 1 - max 1 ⌊(sell_price : ℚ) * (5 / 100)⌋ - max 1 ⌊(sell_price : ℚ) * (10 / 100)⌋

/-- Values of one history field with falsy (zero) entries skipped, in
order: the list the aggregator actually works from. -/
def nonzero_values (f : HistoryEntry → ℤ) (history : List HistoryEntry) : List ℤ :=
  (history.filter (fun h => f h != 0)).map f

/-- Leading element of a value list divided by 10000, `0` when empty. -/
def lead_velocity (values : List ℤ) : ℚ :=
  if values = [] then 0 else (values.headD 0 : ℚ) / 10000

/-- Average of the first `n` elements of a value list (divided by the
count of elements present, capped at `n`), then by 10000; `0` when empty. -/
def window_velocity (n : ℕ) (values : List ℤ) : ℚ :=
  if values = [] then 0
  else ((values.take n).sum : ℚ) / ((min n values.length : ℕ) : ℚ) / 10000

/-- Leading element of a value list, `0` when empty. -/
def lead_quantity (values : List ℤ) : ℤ :=
  if values = [] then 0 else values.headD 0

/-- Raw sum of the first `n` elements of a value list. -/
def window_quantity (n : ℕ) (values : List ℤ) : ℤ :=
  if values = [] then 0 else (values.take n).sum

/-- Claim-side reading of C4's 7-day buy velocity: the sum over the first
seven HISTORY entries unconditionally (no zero-skipping), averaged over the
count of history entries present capped at 7, divided by 10000. -/
def claim_buy_velocity_7d (history : List HistoryEntry) : ℚ :=
  if history = [] then 0
  else (((history.take 7).map (fun h => h.buy_value)).sum : ℚ) / ((min 7 history.length : ℕ) : ℚ) / 10000

/-- Claim-side reading of C5's 1-day buy quantity: exactly entry 0's sold
count. -/
def claim_buy_sold_1d (history : List HistoryEntry) : ℤ :=
  match history with
  | [] => 0
  | e :: _ => e.buy_sold

/-- History with a zero-value leading day, separating the code's filtered
window from the claim's unfiltered window. -/
def velocity_cex_history : List HistoryEntry :=
  [{ date := "d0", buy_value := 0 }, { date := "d1", buy_value := 70000 }]

/-- History whose leading day has zero sold count. -/
def quantity_cex_history : List HistoryEntry :=
  [{ date := "q0", buy_sold := 0 }, { date := "q1", buy_sold := 5 }]

/-- Today's entry with zero buy fills and a hundred open buy listings. -/
def ratio_cex_entry : HistoryEntry :=
  { date := "today", buy_sold := 0, buy_listed := 100, sell_sold := 5, sell_listed := 7 }

/-- Order book of the depth-scorer example: buy listings at 100, 105, 110. -/
def example_book : OrderBook :=
  { item_id := 1
    buys := [{ unit_price := 100, quantity := 10 },
             { unit_price := 105, quantity := 20 },
             { unit_price := 110, quantity := 30 }] }

/-- Item passing every `cmd_flips` filter with 1-day sold counts `sold` on
both sides; its computed flip score is `5 * sold`. -/
def item_flip (n : ℤ) (nm : String) (sold : ℤ) : Item :=
  { id := n, name := nm, buy_price := some 1, sell_price := some 15,
    buy_quantity := some 1, sell_quantity := some 1,
    buy_velocity_1d := some 1, sell_velocity_1d := some 1,
    buy_sold_1d := some sold, sell_sold_1d := some sold }

/-- Item with flip score 50. -/
def item_a : Item := item_flip 1 "A" 10

/-- Item with flip score 10. -/
def item_b : Item := item_flip 2 "B" 2

/-- Item with flip score 30. -/
def item_c : Item := item_flip 3 "C" 6

/-- Threshold arguments for the ranking example: limit 2, no profit window,
defaults otherwise permissive. -/
def example_args : FlipsArgs :=
  { days := 1, limit := 2, min_profit := 0, max_profit := none,
    max_price := 3000000, min_sold := 0, min_bought := 0 }

/-- Flip result produced by `calculate_flip_result` on `item_flip` items. -/
def result_of (it : Item) (score : ℚ) : FlipResult :=
  { item := it, percent_profit := 500, flip_score := score, flip_velocity := 1 }

/-- Stored row holding derived metrics, including a non-null flip score. -/
def witness_row : ItemRow :=
  { id := 1, name := "Item 1", buy_price := some 100, sell_price := some 200,
    vendor_value := some 3, buy_velocity_1d := some 1, buy_sold_1d := some 5,
    flip_score := some 42 }

/-- Fresh price snapshot for the same item, with no vendor value. -/
def witness_snapshot : ItemPrice :=
  { id := 1, name := "Item 1", buy_price := some 110, sell_price := some 220 }

theorem all_map_pair {α β : Type} (l : List α) (f : α → β) (p : β → Bool) :
    (l.map f).all p = l.all (fun a => p (f a)) := by
  induction l with
  | nil => rfl
  | cons h t ih => simp [ih]

theorem recompute_row_idem (row : ItemRow) :
    recompute_row (recompute_row row) = recompute_row row := rfl

/-- C10: the derived-metrics-only recompute is idempotent: with no
intervening change to the stored raw fields, running it twice leaves every
stored column (in particular the six velocities and `flip_score`) exactly
as running it once. -/
theorem recompute_derived_metrics_idempotent (db : List ItemRow) :
    recompute_derived_metrics (recompute_derived_metrics db) =
      recompute_derived_metrics db := by
  simp [recompute_derived_metrics, List.map_map, Function.comp_def, recompute_row_idem]

/-- C2: a price-snapshot upsert of an existing row overwrites only the raw
columns (`name`, prices, quantities, `price_updated`), keeps the stored
vendor value unless the snapshot supplies one, and leaves every derived
column — velocities, sold quantities, competition ratios, price pressure,
yesterday floor/ceiling, competition gold/tiers, and in particular a
non-null `flip_score` — numerically unchanged. -/
theorem upsert_items_frame (row : ItemRow) (item : ItemPrice) (now : String) :
    ((upsert_row row item now).flip_score = row.flip_score ∧
     (upsert_row row item now).buy_velocity_1d = row.buy_velocity_1d ∧
     (upsert_row row item now).sell_velocity_1d = row.sell_velocity_1d ∧
     (upsert_row row item now).buy_velocity_7d = row.buy_velocity_7d ∧
     (upsert_row row item now).sell_velocity_7d = row.sell_velocity_7d ∧
     (upsert_row row item now).buy_velocity_30d = row.buy_velocity_30d ∧
     (upsert_row row item now).sell_velocity_30d = row.sell_velocity_30d ∧
     (upsert_row row item now).buy_sold_1d = row.buy_sold_1d ∧
     (upsert_row row item now).sell_sold_1d = row.sell_sold_1d ∧
     (upsert_row row item now).buy_sold_7d = row.buy_sold_7d ∧
     (upsert_row row item now).sell_sold_7d = row.sell_sold_7d ∧
     (upsert_row row item now).buy_sold_30d = row.buy_sold_30d ∧
     (upsert_row row item now).sell_sold_30d = row.sell_sold_30d ∧
     (upsert_row row item now).buy_competition_ratio = row.buy_competition_ratio ∧
     (upsert_row row item now).sell_competition_ratio = row.sell_competition_ratio ∧
     (upsert_row row item now).price_pressure = row.price_pressure ∧
     (upsert_row row item now).buy_price_min_yesterday = row.buy_price_min_yesterday ∧
     (upsert_row row item now).sell_price_max_yesterday = row.sell_price_max_yesterday ∧
     (upsert_row row item now).competition_gold = row.competition_gold ∧
     (upsert_row row item now).competition_tiers = row.competition_tiers ∧
     (upsert_row row item now).velocity_updated = row.velocity_updated) ∧
    ((upsert_row row item now).name = item.name ∧
     (upsert_row row item now).buy_price = item.buy_price ∧
     (upsert_row row item now).sell_price = item.sell_price ∧
     (upsert_row row item now).buy_quantity = item.buy_quantity ∧
     (upsert_row row item now).sell_quantity = item.sell_quantity ∧
     (upsert_row row item now).price_updated = some now) ∧
    (item.vendor_value = none → (upsert_row row item now).vendor_value = row.vendor_value) ∧
    (∀ v, item.vendor_value = some v → (upsert_row row item now).vendor_value = some v) ∧
    (row.id = item.id → upsert_items [row] [item] now = [upsert_row row item now]) := by
  refine ⟨⟨rfl, rfl, rfl, rfl, rfl, rfl, rfl, rfl, rfl, rfl, rfl, rfl, rfl, rfl, rfl,
    rfl, rfl, rfl, rfl, rfl, rfl⟩, ⟨rfl, rfl, rfl, rfl, rfl, rfl⟩, ?_, ?_, ?_⟩
  · intro h
    simp [upsert_row, coalesce, h]
  · intro v h
    simp [upsert_row, coalesce, h]
  · intro h
    simp [upsert_items, h]

theorem upsert_items_frame_witness :
    (upsert_row witness_row witness_snapshot "t").flip_score = witness_row.flip_score ∧
    (upsert_row witness_row witness_snapshot "t").vendor_value = witness_row.vendor_value ∧
    upsert_items [witness_row] [witness_snapshot] "t" =
      [upsert_row witness_row witness_snapshot "t"] := by
  obtain ⟨hframe, -, hnone, hsome, hlist⟩ :=
    upsert_items_frame witness_row witness_snapshot "t"
  exact ⟨hframe.1, hnone rfl, hlist rfl⟩

/-- C3: `_row_to_item` passes a `flip_score` keyword to the `Item`
constructor, which declares no such field, so it raises `TypeError` on
every row, and every read that maps rows through it fails on any matching
row instead of returning items. -/
theorem row_to_item_type_error :
    (∀ (V : Type) (row : String → V),
      row_to_item row = Except.error PyError.typeError) ∧
    (∀ (V : Type) (rows : List (String → V)), rows ≠ [] →
      get_all_items rows = Except.error PyError.typeError) ∧
    "flip_score" ∈ row_to_item_kwarg_names ∧ "flip_score" ∉ item_field_names := by
  have hb : row_to_item_kwarg_names.all (fun k => item_field_names.contains k) = false := by
    decide
  have h1 : ∀ (V : Type) (row : String → V),
      row_to_item row = Except.error PyError.typeError := by
    intro V row
    have hb2 : ((row_to_item_kwarg_names.map (fun k => (k, row k))).all
        fun kv => item_field_names.contains kv.1) = false := by
      rw [all_map_pair]; exact hb
    simp [row_to_item, dataclass_call, hb2]
    exact ⟨"flip_score", by decide, by decide⟩
  refine ⟨h1, ?_, by decide, by decide⟩
  intro V rows hne
  match rows with
  | [] => exact absurd rfl hne
  | r :: rest =>
    simp [get_all_items, List.mapM_cons, h1 V r]
    rfl

theorem row_to_item_type_error_witness :
    get_all_items [fun _ => (0 : ℤ)] = Except.error PyError.typeError :=
  row_to_item_type_error.2.1 ℤ [fun _ => (0 : ℤ)] (by simp)

/-- C8: the competition ratio uses only entry 0; each side is listed/sold
and is `+∞` exactly when that side's sold count is 0; empty history gives
`(0, 0)`, not infinity and not an error. -/
theorem calc_competition_ratio_spec :
    calc_competition_ratio [] = (0, 0) ∧
    (∀ (entry : HistoryEntry) (rest : List HistoryEntry),
      ((calc_competition_ratio (entry :: rest)).1 = ⊤ ↔ entry.buy_sold = 0) ∧
      ((calc_competition_ratio (entry :: rest)).2 = ⊤ ↔ entry.sell_sold = 0) ∧
      (entry.buy_sold ≠ 0 →
        (calc_competition_ratio (entry :: rest)).1 =
          (((entry.buy_listed : ℚ) / (entry.buy_sold : ℚ) : ℚ) : WithTop ℚ)) ∧
      (entry.sell_sold ≠ 0 →
        (calc_competition_ratio (entry :: rest)).2 =
          (((entry.sell_listed : ℚ) / (entry.sell_sold : ℚ) : ℚ) : WithTop ℚ))) ∧
    (∀ (entry : HistoryEntry) (rest : List HistoryEntry),
      entry.buy_sold = 0 → entry.buy_listed = 100 → 0 < entry.sell_sold →
        (calc_competition_ratio (entry :: rest)).1 = ⊤ ∧
        (calc_competition_ratio (entry :: rest)).2 ≠ ⊤) := by
  refine ⟨rfl, ?_, ?_⟩
  · intro entry rest
    by_cases hb : entry.buy_sold = 0 <;> by_cases hs : entry.sell_sold = 0 <;>
      simp [calc_competition_ratio, hb, hs]
  · intro entry rest hb hl hs
    have hs2 : entry.sell_sold ≠ 0 := by omega
    simp [calc_competition_ratio, hb, hs2]

theorem calc_competition_ratio_witness :
    (calc_competition_ratio [ratio_cex_entry]).1 = ⊤ ∧
    (calc_competition_ratio [ratio_cex_entry]).2 ≠ ⊤ :=
  calc_competition_ratio_spec.2.2 ratio_cex_entry [] rfl rfl (by decide)

/-- C4 counterexample: with a zero-value leading day followed by a 70000
day, the code's 7-day buy velocity averages the FILTERED list (70000 over
one entry, giving 7), not all present entries as the claim states (which
would give 3.5). -/
theorem calc_velocity_cex :
    (calc_velocity velocity_cex_history).2.2.1 = 7 ∧
    claim_buy_velocity_7d velocity_cex_history = 7 / 2 ∧
    (calc_velocity velocity_cex_history).2.2.1 ≠ claim_buy_velocity_7d velocity_cex_history := by
  have hne : velocity_cex_history ≠ [] := by decide
  have h1 : (calc_velocity velocity_cex_history).2.2.1 = 7 := by
    simp only [calc_velocity]
    rw [if_neg hne]
    norm_num [velocity_cex_history]
  have h2 : claim_buy_velocity_7d velocity_cex_history = 7 / 2 := by
    simp only [claim_buy_velocity_7d]
    rw [if_neg hne]
    norm_num [velocity_cex_history]
  refine ⟨h1, h2, ?_⟩
  rw [h1, h2]
  norm_num

/-- C4 (amended): ALL velocity windows, not just the 1-day one, are
computed from the value lists that skip falsy/zero entries: 1-day is the
filtered list's leading value over 10000, and the 7/30-day figures average
the filtered list's first 7/30 values over the count of filtered entries
present (capped at 7/30), over 10000; an empty history (or an all-zero
column) yields 0.0. -/
theorem calc_velocity_filtered (history : List HistoryEntry) :
    calc_velocity history =
      (lead_velocity (nonzero_values (fun h => h.buy_value) history),
       lead_velocity (nonzero_values (fun h => h.sell_value) history),
       window_velocity 7 (nonzero_values (fun h => h.buy_value) history),
       window_velocity 7 (nonzero_values (fun h => h.sell_value) history),
       window_velocity 30 (nonzero_values (fun h => h.buy_value) history),
       window_velocity 30 (nonzero_values (fun h => h.sell_value) history)) := by
  cases history with
  | nil => rfl
  | cons h t => rfl

/-- C5 counterexample: with a zero-sold leading day followed by a 5-sold
day, the code's 1-day buy quantity is the first NONZERO sold count (5),
not entry 0's sold count (0) as the claim states. -/
theorem calc_quantity_sold_cex :
    (calc_quantity_sold quantity_cex_history).1 = 5 ∧
    claim_buy_sold_1d quantity_cex_history = 0 ∧
    (calc_quantity_sold quantity_cex_history).1 ≠ claim_buy_sold_1d quantity_cex_history := by
  refine ⟨?_, ?_, ?_⟩ <;> decide

/-- C5 (amended): the sold quantities are computed from the sold-count
lists that skip falsy/zero entries: 1-day is the filtered list's first
element, and the 7/30-day figures are raw sums (no averaging) of the
filtered list's first 7/30 elements; empty history yields all zeros. -/
theorem calc_quantity_sold_filtered (history : List HistoryEntry) :
    calc_quantity_sold history =
      (lead_quantity (nonzero_values (fun h => h.buy_sold) history),
       lead_quantity (nonzero_values (fun h => h.sell_sold) history),
       window_quantity 7 (nonzero_values (fun h => h.buy_sold) history),
       window_quantity 7 (nonzero_values (fun h => h.sell_sold) history),
       window_quantity 30 (nonzero_values (fun h => h.buy_sold) history),
       window_quantity 30 (nonzero_values (fun h => h.sell_sold) history)) := by
  cases history with
  | nil => rfl
  | cons h t => rfl

theorem foldl_competition {p : Listing → Prop} [DecidablePred p]
    (l : List Listing) (a : ℚ) (c : ℤ) :
    l.foldl
      (fun acc order =>
        if p order then
          (acc.1 + ((order.unit_price * order.quantity : ℤ) : ℚ) / 10000, acc.2 + 1)
        else acc)
      (a, c) =
    (a + ((l.filter (fun o => decide (p o))).map
        (fun o => ((o.unit_price * o.quantity : ℤ) : ℚ) / 10000)).sum,
     c + ((l.filter (fun o => decide (p o))).length : ℤ)) := by
  induction l generalizing a c with
  | nil => simp
  | cons hd tl ih =>
    by_cases hp : p hd
    · rw [List.foldl_cons, if_pos hp, ih, List.filter_cons, if_pos (decide_eq_true hp),
        List.map_cons, List.sum_cons, List.length_cons, Prod.mk.injEq]
      refine ⟨by ring, ?_⟩
      push_cast
      ring
    · rw [List.foldl_cons, if_neg hp, ih, List.filter_cons,
        if_neg (by simpa using hp)]

/-- C9 counterexample: on the example book with floor 100, the buy-side
competition gold is (105·20 + 110·30)/10000 = 0.54 gold, not 54.0 as the
claim's concrete instance states. -/
theorem order_book_gold_cex :
    (example_book.get_competition_metrics (some 100)).1 = 27 / 50 ∧
    (example_book.get_competition_metrics (some 100)).1 ≠ 54 := by
  have h : (example_book.get_competition_metrics (some 100)).1 = 27 / 50 := by
    simp only [OrderBook.get_competition_metrics, example_book]
    rw [if_neg (by decide)]
    norm_num [List.foldl_cons, List.foldl_nil]
  exact ⟨h, by rw [h]; norm_num⟩

/-- C9 (amended): the buy side returns (0.0, 0) when the floor is absent
(and when the book has no buy listings), and otherwise sums
(price·quantity)/10000 over and counts exactly the buy listings whose
price strictly exceeds the floor; the sell side symmetrically uses price
strictly below the ceiling and positive; a listing exactly at the
floor/ceiling is never counted.  On the example book with floor 100 this
gives tiers = 2 and gold = 0.54 (not 54.0). -/
theorem order_book_metrics_spec :
    (∀ book : OrderBook,
      book.get_competition_metrics none = (0, 0) ∧
      book.get_sell_competition_metrics none = (0, 0)) ∧
    (∀ (book : OrderBook) (floor : ℤ),
      book.get_competition_metrics (some floor) =
        (((book.buys.filter (fun o => decide (floor < o.unit_price))).map
            (fun o => ((o.unit_price * o.quantity : ℤ) : ℚ) / 10000)).sum,
         ((book.buys.filter (fun o => decide (floor < o.unit_price))).length : ℤ))) ∧
    (∀ (book : OrderBook) (ceiling : ℤ),
      book.get_sell_competition_metrics (some ceiling) =
        (((book.sells.filter
              (fun o => decide (o.unit_price < ceiling ∧ 0 < o.unit_price))).map
            (fun o => ((o.unit_price * o.quantity : ℤ) : ℚ) / 10000)).sum,
         ((book.sells.filter
              (fun o => decide (o.unit_price < ceiling ∧ 0 < o.unit_price))).length : ℤ))) ∧
    example_book.get_competition_metrics (some 100) = (27 / 50, 2) := by
  have hbuy : ∀ (book : OrderBook) (floor : ℤ),
      book.get_competition_metrics (some floor) =
        (((book.buys.filter (fun o => decide (floor < o.unit_price))).map
            (fun o => ((o.unit_price * o.quantity : ℤ) : ℚ) / 10000)).sum,
         ((book.buys.filter (fun o => decide (floor < o.unit_price))).length : ℤ)) := by
    intro book floor
    simp only [OrderBook.get_competition_metrics]
    by_cases hb : book.buys = []
    · simp [hb]
    · rw [if_neg hb, foldl_competition]
      simp
  have hsell : ∀ (book : OrderBook) (ceiling : ℤ),
      book.get_sell_competition_metrics (some ceiling) =
        (((book.sells.filter
              (fun o => decide (o.unit_price < ceiling ∧ 0 < o.unit_price))).map
            (fun o => ((o.unit_price * o.quantity : ℤ) : ℚ) / 10000)).sum,
         ((book.sells.filter
              (fun o => decide (o.unit_price < ceiling ∧ 0 < o.unit_price))).length : ℤ)) := by
    intro book ceiling
    simp only [OrderBook.get_sell_competition_metrics]
    by_cases hb : book.sells = []
    · simp [hb]
    · rw [if_neg hb, foldl_competition]
      simp
  refine ⟨fun book => ⟨rfl, rfl⟩, hbuy, hsell, ?_⟩
  rw [hbuy]
  norm_num [example_book]

theorem pyInt_of_nonneg (x : ℚ) (h : 0 ≤ x) : pyInt x = ⌊x⌋ := by
  simp [pyInt, h]

theorem le_vendor_iff (x : ℤ) (v : Option ℤ) :
    le_vendor x v = true ↔ ∃ w, v = some w ∧ x ≤ w := by
  cases v <;> simp [le_vendor]

theorem listing_fee_floor (s : ℤ) (hs : 0 ≤ s) :
    listing_fee s = max 1 ⌊(s : ℚ) / 20⌋ := by
  have hx : (0 : ℚ) ≤ (s : ℚ) * (5 / 100) := by
    have : (0 : ℚ) ≤ (s : ℚ) := by exact_mod_cast hs
    nlinarith
  unfold listing_fee
  rw [pyInt_of_nonneg _ hx, show (s : ℚ) * (5 / 100) = (s : ℚ) / 20 by ring]

theorem exchange_fee_floor (s : ℤ) (hs : 0 ≤ s) :
    exchange_fee s = max 1 ⌊(s : ℚ) / 10⌋ := by
  have hx : (0 : ℚ) ≤ (s : ℚ) * (10 / 100) := by
    have : (0 : ℚ) ≤ (s : ℚ) := by exact_mod_cast hs
    nlinarith
  unfold exchange_fee
  rw [pyInt_of_nonneg _ hx, show (s : ℚ) * (10 / 100) = (s : ℚ) / 10 by ring]

theorem spec_revenue_eq (s : ℤ) (hs : 0 < s) : spec_revenue s = revenue s := by
  have h5 : (0 : ℚ) ≤ (s : ℚ) * (5 / 100) := by
    have : (0 : ℚ) ≤ (s : ℚ) := by exact_mod_cast hs.le
    nlinarith
  have h10 : (0 : ℚ) ≤ (s : ℚ) * (10 / 100) := by
    have : (0 : ℚ) ≤ (s : ℚ) := by exact_mod_cast hs.le
    nlinarith
  unfold spec_revenue revenue listing_fee exchange_fee
  rw [pyInt_of_nonneg _ h5, pyInt_of_nonneg _ h10]

theorem floor_sum_le (x y : ℚ) : ⌊x + y⌋ ≤ ⌊x⌋ + ⌊y⌋ + 1 := by
  have hx := Int.lt_floor_add_one x
  have hy := Int.lt_floor_add_one y
  have h : x + y < ((⌊x⌋ + ⌊y⌋ + 2 : ℤ) : ℚ) := by push_cast; linarith
  have := Int.floor_lt.mpr h
  omega

theorem revenue_mono (s1 s2 : ℤ) (hs1 : 0 < s1) (h : s1 + 2 ≤ s2) :
    revenue s1 ≤ revenue s2 := by
  have hs2 : 0 < s2 := by omega
  have e1 := listing_fee_floor s1 hs1.le
  have e2 := listing_fee_floor s2 hs2.le
  have f1 := exchange_fee_floor s1 hs1.le
  have f2 := exchange_fee_floor s2 hs2.le
  set d : ℤ := s2 - s1 with hd
  have hd2 : 2 ≤ d := by omega
  have hdq : (0 : ℚ) ≤ (d : ℚ) := by exact_mod_cast (by omega : (0 : ℤ) ≤ d)
  have hsum : (s2 : ℚ) = (s1 : ℚ) + (d : ℚ) := by push_cast [hd]; ring
  have hsplit20 : ⌊(s2 : ℚ) / 20⌋ ≤ ⌊(s1 : ℚ) / 20⌋ + ⌊(d : ℚ) / 20⌋ + 1 := by
    have he : (s2 : ℚ) / 20 = (s1 : ℚ) / 20 + (d : ℚ) / 20 := by rw [hsum]; ring
    rw [he]
    exact floor_sum_le _ _
  have hsplit10 : ⌊(s2 : ℚ) / 10⌋ ≤ ⌊(s1 : ℚ) / 10⌋ + ⌊(d : ℚ) / 10⌋ + 1 := by
    have he : (s2 : ℚ) / 10 = (s1 : ℚ) / 10 + (d : ℚ) / 10 := by rw [hsum]; ring
    rw [he]
    exact floor_sum_le _ _
  have hb20 : 0 ≤ ⌊(d : ℚ) / 20⌋ := Int.floor_nonneg.mpr (by positivity)
  have hb10 : 0 ≤ ⌊(d : ℚ) / 10⌋ := Int.floor_nonneg.mpr (by positivity)
  have hdb : ⌊(d : ℚ) / 20⌋ + ⌊(d : ℚ) / 10⌋ + 2 ≤ d := by
    rcases eq_or_lt_of_le hd2 with he | h3
    · rw [← he]
      norm_num
    · have h3 : 3 ≤ d := by omega
      have c20 : ((⌊(d : ℚ) / 20⌋ : ℤ) : ℚ) ≤ (d : ℚ) / 20 := Int.floor_le _
      have c10 : ((⌊(d : ℚ) / 10⌋ : ℤ) : ℚ) ≤ (d : ℚ) / 10 := Int.floor_le _
      have hd3 : (3 : ℚ) ≤ (d : ℚ) := by exact_mod_cast h3
      have hq : ((⌊(d : ℚ) / 20⌋ + ⌊(d : ℚ) / 10⌋ + 2 : ℤ) : ℚ) ≤ (d : ℚ) := by
        push_cast
        linarith
      exact_mod_cast hq
  rw [revenue, revenue, e1, e2, f1, f2]
  omega

theorem cpp_nonneg (b s : ℤ) (v : Option ℤ) : 0 ≤ calc_percent_profit b s v := by
  unfold calc_percent_profit
  split_ifs with h1 h2 h3 h4
  · norm_num
  · norm_num
  · norm_num
  · norm_num
  push_neg at h1
  have hc : (0 : ℚ) < ((b + 1 : ℤ) : ℚ) := by
    exact_mod_cast (by omega : (0 : ℤ) < b + 1)
  have hr : ((b + 1 : ℤ) : ℚ) < ((revenue s : ℤ) : ℚ) := by
    exact_mod_cast (by omega : (b + 1 : ℤ) < revenue s)
  have hdiv : (0 : ℚ) < ((revenue s : ℤ) : ℚ) - ((b + 1 : ℤ) : ℚ) := by linarith
  exact le_of_lt (mul_pos (div_pos hdiv hc) (by norm_num))

theorem cpp_no_margin (b s : ℤ) (h : revenue s ≤ b + 1) :
    calc_percent_profit b s none = 0 := by
  unfold calc_percent_profit
  split_ifs with h1 h2 <;> try rfl

theorem cpp_margin (b s : ℤ) (hb : 0 < b) (hs : 0 < s) (h : b + 1 < revenue s) :
    calc_percent_profit b s none =
      ((revenue s : ℚ) - ((b + 1 : ℤ) : ℚ)) / ((b + 1 : ℤ) : ℚ) * 100 := by
  unfold calc_percent_profit
  rw [if_neg (by omega : ¬(b ≤ 0 ∨ s ≤ 0)), if_neg (by simp [le_vendor]),
    if_neg (by omega : ¬(revenue s ≤ b + 1)), if_neg (by simp [le_vendor])]

/-- C1: `calc_percent_profit` returns 0.0 exactly when a price is
non-positive, or a supplied vendor value is at least the buy price, or
revenue ≤ cost, or a supplied vendor value is at least the revenue — with
cost = buy_price + 1 and revenue = sell_price − 1 − max(1, ⌊sell_price ·
0.05⌋) − max(1, ⌊sell_price · 0.10⌋) — and otherwise returns
(revenue − cost)/cost · 100 exactly, with no rounding. -/
theorem calc_percent_profit_spec (b s : ℤ) (v : Option ℤ) :
    (calc_percent_profit b s v = 0 ↔
      b ≤ 0 ∨ s ≤ 0 ∨ (∃ w, v = some w ∧ b ≤ w) ∨ spec_revenue s ≤ b + 1 ∨
        (∃ w, v = some w ∧ spec_revenue s ≤ w)) ∧
    (¬(b ≤ 0 ∨ s ≤ 0 ∨ (∃ w, v = some w ∧ b ≤ w) ∨ spec_revenue s ≤ b + 1 ∨
        (∃ w, v = some w ∧ spec_revenue s ≤ w)) →
      calc_percent_profit b s v =
        ((spec_revenue s : ℚ) - ((b + 1 : ℤ) : ℚ)) / ((b + 1 : ℤ) : ℚ) * 100) := by
  by_cases h0 : b ≤ 0 ∨ s ≤ 0
  · have hz : calc_percent_profit b s v = 0 := by
      unfold calc_percent_profit
      rw [if_pos h0]
    have hd : b ≤ 0 ∨ s ≤ 0 ∨ (∃ w, v = some w ∧ b ≤ w) ∨ spec_revenue s ≤ b + 1 ∨
        (∃ w, v = some w ∧ spec_revenue s ≤ w) := h0.elim Or.inl (fun h => Or.inr (Or.inl h))
    exact ⟨⟨fun _ => hd, fun _ => hz⟩, fun hn => absurd hd hn⟩
  · have hs : 0 < s := by omega
    have hb : 0 < b := by omega
    have hsr : spec_revenue s = revenue s := spec_revenue_eq s hs
    rw [hsr]
    by_cases hv1 : le_vendor b v = true
    · have hex : ∃ w, v = some w ∧ b ≤ w := (le_vendor_iff b v).mp hv1
      have hz : calc_percent_profit b s v = 0 := by
        unfold calc_percent_profit
        rw [if_neg h0, if_pos hv1]
      have hd : b ≤ 0 ∨ s ≤ 0 ∨ (∃ w, v = some w ∧ b ≤ w) ∨ revenue s ≤ b + 1 ∨
          (∃ w, v = some w ∧ revenue s ≤ w) := Or.inr (Or.inr (Or.inl hex))
      exact ⟨⟨fun _ => hd, fun _ => hz⟩, fun hn => absurd hd hn⟩
    · by_cases hr : revenue s ≤ b + 1
      · have hz : calc_percent_profit b s v = 0 := by
          unfold calc_percent_profit
          rw [if_neg h0, if_neg hv1, if_pos hr]
        have hd : b ≤ 0 ∨ s ≤ 0 ∨ (∃ w, v = some w ∧ b ≤ w) ∨ revenue s ≤ b + 1 ∨
            (∃ w, v = some w ∧ revenue s ≤ w) := Or.inr (Or.inr (Or.inr (Or.inl hr)))
        exact ⟨⟨fun _ => hd, fun _ => hz⟩, fun hn => absurd hd hn⟩
      · by_cases hv2 : le_vendor (revenue s) v = true
        · have hex : ∃ w, v = some w ∧ revenue s ≤ w := (le_vendor_iff _ v).mp hv2
          have hz : calc_percent_profit b s v = 0 := by
            unfold calc_percent_profit
            rw [if_neg h0, if_neg hv1, if_neg hr, if_pos hv2]
          have hd : b ≤ 0 ∨ s ≤ 0 ∨ (∃ w, v = some w ∧ b ≤ w) ∨ revenue s ≤ b + 1 ∨
              (∃ w, v = some w ∧ revenue s ≤ w) := Or.inr (Or.inr (Or.inr (Or.inr hex)))
          exact ⟨⟨fun _ => hd, fun _ => hz⟩, fun hn => absurd hd hn⟩
        · have hf : calc_percent_profit b s v =
              ((revenue s : ℚ) - ((b + 1 : ℤ) : ℚ)) / ((b + 1 : ℤ) : ℚ) * 100 := by
            unfold calc_percent_profit
            rw [if_neg h0, if_neg hv1, if_neg hr, if_neg hv2]
          have hnd : ¬(b ≤ 0 ∨ s ≤ 0 ∨ (∃ w, v = some w ∧ b ≤ w) ∨
              revenue s ≤ b + 1 ∨ (∃ w, v = some w ∧ revenue s ≤ w)) := by
            rintro (h | h | h | h | h)
            · omega
            · omega
            · exact hv1 ((le_vendor_iff b v).mpr h)
            · exact hr h
            · exact hv2 ((le_vendor_iff _ v).mpr h)
          have hpos : 0 < ((revenue s : ℚ) - ((b + 1 : ℤ) : ℚ)) / ((b + 1 : ℤ) : ℚ) * 100 := by
            have hc : (0 : ℚ) < ((b + 1 : ℤ) : ℚ) := by
              exact_mod_cast (by omega : (0 : ℤ) < b + 1)
            have hrq : ((b + 1 : ℤ) : ℚ) < ((revenue s : ℤ) : ℚ) := by
              exact_mod_cast (by omega : (b + 1 : ℤ) < revenue s)
            exact mul_pos (div_pos (by linarith) hc) (by norm_num)
          refine ⟨⟨fun he => absurd he (by rw [hf]; exact ne_of_gt hpos), fun hd => absurd hd hnd⟩,
            fun _ => hf⟩

theorem calc_percent_profit_spec_witness :
    calc_percent_profit 100 150 none = 2600 / 101 := by
  have hrev : spec_revenue 150 = 127 := by norm_num [spec_revenue]
  have hnd : ¬((100 : ℤ) ≤ 0 ∨ (150 : ℤ) ≤ 0 ∨
      (∃ w, (none : Option ℤ) = some w ∧ (100 : ℤ) ≤ w) ∨ spec_revenue 150 ≤ 100 + 1 ∨
      (∃ w, (none : Option ℤ) = some w ∧ spec_revenue 150 ≤ w)) := by
    rw [hrev]
    rintro (h | h | ⟨w, hw, -⟩ | h | ⟨w, hw, -⟩)
    · norm_num at h
    · norm_num at h
    · cases hw
    · norm_num at h
    · cases hw
  have h := (calc_percent_profit_spec 100 150 none).2 hnd
  rw [h, hrev]
  norm_num

/-- C6 counterexample: for buy price 1 the profit percentage DROPS from
1600 at sell price 39 to 1550 at sell price 40 (both fee floors step up at
40), so `calc_percent_profit` is not monotonically non-decreasing in
`sell_price` over positive integers. -/
theorem calc_percent_profit_mono_cex :
    (0 : ℤ) < 1 ∧ (0 : ℤ) < 39 ∧ (39 : ℤ) ≤ 40 ∧
    calc_percent_profit 1 40 none < calc_percent_profit 1 39 none := by
  have h39 : calc_percent_profit 1 39 none = 1600 := by
    norm_num [calc_percent_profit, revenue, listing_fee, exchange_fee, pyInt, le_vendor]
  have h40 : calc_percent_profit 1 40 none = 1550 := by
    norm_num [calc_percent_profit, revenue, listing_fee, exchange_fee, pyInt, le_vendor]
  refine ⟨by norm_num, by norm_num, by norm_num, ?_⟩
  rw [h39, h40]
  norm_num

/-- C6 (amended): with no vendor floor supplied and a fixed positive buy
price, `calc_percent_profit` is non-decreasing in the sell price whenever
the sell price increases by at least 2; only a unit step can decrease it
(when both fee floors jump together, as at 39 → 40). -/
theorem calc_percent_profit_mono (b s1 s2 : ℤ) (hb : 0 < b) (hs1 : 0 < s1)
    (h : s1 + 2 ≤ s2) :
    calc_percent_profit b s1 none ≤ calc_percent_profit b s2 none := by
  have hs2 : 0 < s2 := by omega
  have hrev := revenue_mono s1 s2 hs1 h
  rcases le_or_lt (revenue s1) (b + 1) with hr | hr
  · rw [cpp_no_margin b s1 hr]
    exact cpp_nonneg b s2 none
  · have hr2 : b + 1 < revenue s2 := lt_of_lt_of_le hr hrev
    rw [cpp_margin b s1 hb hs1 hr, cpp_margin b s2 hb hs2 hr2]
    have hc : (0 : ℚ) < ((b + 1 : ℤ) : ℚ) := by
      exact_mod_cast (by omega : (0 : ℤ) < b + 1)
    have hle : ((revenue s1 : ℤ) : ℚ) ≤ ((revenue s2 : ℤ) : ℚ) := by exact_mod_cast hrev
    have hdiv : ((revenue s1 : ℚ) - ((b + 1 : ℤ) : ℚ)) / ((b + 1 : ℤ) : ℚ) ≤
        ((revenue s2 : ℚ) - ((b + 1 : ℤ) : ℚ)) / ((b + 1 : ℤ) : ℚ) :=
      (div_le_div_iff_of_pos_right hc).mpr (by linarith)
    exact mul_le_mul_of_nonneg_right hdiv (by norm_num)

theorem calc_percent_profit_mono_witness :
    calc_percent_profit 1 5 none ≤ calc_percent_profit 1 50 none :=
  calc_percent_profit_mono 1 5 50 (by norm_num) (by norm_num) (by norm_num)

theorem opt_append_none {β : Type} (acc : List β) : opt_append acc none = acc := rfl

theorem opt_append_some {β : Type} (acc : List β) (b : β) :
    opt_append acc (some b) = acc ++ [b] := rfl

theorem foldl_append_filterMap {α β : Type} (f : α → Option β) (l : List α) (acc : List β) :
    l.foldl (fun acc x => opt_append acc (f x)) acc = acc ++ l.filterMap f := by
  induction l generalizing acc with
  | nil => simp
  | cons hd tl ih =>
    cases hf : f hd <;>
      simp [List.foldl_cons, hf, opt_append_none, opt_append_some, ih,
        List.filterMap_cons]

theorem le_flip_trans (a b c : FlipResult) :
    le_flip a b → le_flip b c → le_flip a c := by
  intro hab hbc
  simp only [le_flip, decide_eq_true_eq] at *
  exact le_trans hbc hab

theorem le_flip_total (a b : FlipResult) : le_flip a b || le_flip b a := by
  simp only [le_flip, Bool.or_eq_true, decide_eq_true_eq]
  exact le_total _ _

theorem cmd_flips_eq (args : FlipsArgs) (items : List Item) :
    cmd_flips args items =
      ((items.filterMap (flips_filter args)).mergeSort le_flip).take args.limit := by
  simp only [cmd_flips]
  rw [foldl_append_filterMap, List.nil_append]

theorem flips_filter_eq_some (args : FlipsArgs) (item : Item) (r : FlipResult)
    (h : flips_filter args item = some r) :
    over_max_price item args.max_price = false ∧
    ¬((item.sell_sold_7d.getD 0 : ℚ) / 7 < (args.min_sold : ℚ)) ∧
    ¬((item.buy_sold_7d.getD 0 : ℚ) / 7 < (args.min_bought : ℚ)) ∧
    calculate_flip_result item args.days = some r ∧
    0 < r.flip_score ∧ args.min_profit ≤ r.percent_profit ∧
    (∀ mp, args.max_profit = some mp → r.percent_profit ≤ mp) := by
  unfold flips_filter at h
  by_cases h1 : over_max_price item args.max_price = true
  · rw [if_pos h1] at h
    simp at h
  · rw [if_neg h1] at h
    by_cases h2 : (item.sell_sold_7d.getD 0 : ℚ) / 7 < (args.min_sold : ℚ)
    · rw [if_pos h2] at h
      simp at h
    · rw [if_neg h2] at h
      by_cases h3 : (item.buy_sold_7d.getD 0 : ℚ) / 7 < (args.min_bought : ℚ)
      · rw [if_pos h3] at h
        simp at h
      · rw [if_neg h3] at h
        cases hcf : calculate_flip_result item args.days with
        | none =>
          rw [hcf] at h
          simp at h
        | some result =>
          rw [hcf] at h
          dsimp only at h
          by_cases h4 : 0 < result.flip_score
          · rw [if_pos h4] at h
            by_cases h5 : args.min_profit ≤ result.percent_profit
            · rw [if_pos h5] at h
              cases hmp : args.max_profit with
              | none =>
                rw [hmp] at h
                dsimp only at h
                injection h with hh
                subst hh
                refine ⟨by simpa using h1, h2, h3, rfl, h4, h5, ?_⟩
                intro mp hm
                cases hm
              | some mp0 =>
                rw [hmp] at h
                dsimp only at h
                by_cases h6 : result.percent_profit ≤ mp0
                · rw [if_pos h6] at h
                  injection h with hh
                  subst hh
                  refine ⟨by simpa using h1, h2, h3, rfl, h4, h5, ?_⟩
                  intro mp hm
                  injection hm with hmm
                  subst hmm
                  exact h6
                · rw [if_neg h6] at h
                  simp at h
            · rw [if_neg h5] at h
              simp at h
          · rw [if_neg h4] at h
            simp at h

unseal List.merge List.mergeSort in
/-- C7: `cmd_flips` filters items by the max-price, min-sold/bought and
profit-window thresholds, sorts the surviving results by `flip_score`
descending, and truncates to the limit; on items with flip scores
[50, 10, 30] and limit 2 it returns the two highest-scoring results in
descending order, excluding the third. -/
theorem cmd_flips_spec :
    (∀ (args : FlipsArgs) (items : List Item),
      cmd_flips args items =
        ((items.filterMap (flips_filter args)).mergeSort le_flip).take args.limit ∧
      (cmd_flips args items).Pairwise (fun a b => b.flip_score ≤ a.flip_score) ∧
      (cmd_flips args items).length ≤ args.limit ∧
      ∀ r ∈ cmd_flips args items,
        (∃ item ∈ items, flips_filter args item = some r ∧
          over_max_price item args.max_price = false ∧
          ¬((item.sell_sold_7d.getD 0 : ℚ) / 7 < (args.min_sold : ℚ)) ∧
          ¬((item.buy_sold_7d.getD 0 : ℚ) / 7 < (args.min_bought : ℚ))) ∧
        0 < r.flip_score ∧ args.min_profit ≤ r.percent_profit ∧
        ∀ mp, args.max_profit = some mp → r.percent_profit ≤ mp) ∧
    cmd_flips example_args [item_a, item_b, item_c] =
      [result_of item_a 50, result_of item_c 30] := by
  constructor
  · intro args items
    refine ⟨cmd_flips_eq args items, ?_, ?_, ?_⟩
    · rw [cmd_flips_eq]
      exact List.Pairwise.sublist (List.take_sublist _ _)
        ((@List.sorted_mergeSort FlipResult le_flip le_flip_trans le_flip_total _).imp
          (fun hab => by simpa [le_flip] using hab))
    · rw [cmd_flips_eq]
      exact List.length_take_le _ _
    · intro r hr
      rw [cmd_flips_eq] at hr
      have hr3 : r ∈ items.filterMap (flips_filter args) :=
        List.mem_mergeSort.mp (List.mem_of_mem_take hr)
      obtain ⟨item, hitem, hf⟩ := List.mem_filterMap.mp hr3
      obtain ⟨h1, h2, h3, h4, h5, h6, h7⟩ := flips_filter_eq_some args item r hf
      exact ⟨⟨item, hitem, hf, h1, h2, h3⟩, h5, h6, h7⟩
  · have ha : flips_filter example_args item_a = some (result_of item_a 50) := by
      norm_num [flips_filter, example_args, item_a, item_flip, over_max_price,
        calculate_flip_result, calc_percent_profit, revenue, listing_fee,
        exchange_fee, pyInt, le_vendor, calc_flip_score, result_of]
    have hb : flips_filter example_args item_b = some (result_of item_b 10) := by
      norm_num [flips_filter, example_args, item_b, item_flip, over_max_price,
        calculate_flip_result, calc_percent_profit, revenue, listing_fee,
        exchange_fee, pyInt, le_vendor, calc_flip_score, result_of]
    have hc : flips_filter example_args item_c = some (result_of item_c 30) := by
      norm_num [flips_filter, example_args, item_c, item_flip, over_max_price,
        calculate_flip_result, calc_percent_profit, revenue, listing_fee,
        exchange_fee, pyInt, le_vendor, calc_flip_score, result_of]
    have hfm : [item_a, item_b, item_c].filterMap (flips_filter example_args) =
        [result_of item_a 50, result_of item_b 10, result_of item_c 30] := by
      simp [List.filterMap_cons, ha, hb, hc]
    rw [cmd_flips_eq, hfm]
    rfl

theorem cmd_flips_spec_witness :
    0 < (result_of item_a 50).flip_score ∧
    example_args.min_profit ≤ (result_of item_a 50).percent_profit := by
  have hmem : result_of item_a 50 ∈ cmd_flips example_args [item_a, item_b, item_c] := by
    rw [cmd_flips_spec.2]
    exact List.mem_cons_self _ _
  obtain ⟨-, h5, h6, -⟩ :=
    (cmd_flips_spec.1 example_args [item_a, item_b, item_c]).2.2.2 (result_of item_a 50) hmem
  exact ⟨h5, h6⟩
